import Mathlib

/-
  Verification development for the cv_debug_mate_cpp test program
  (src/test_cpp/main.cpp).

  The program is a sequence of demo routines that fill in-memory buffers
  with synthetic data.  We embed the scalar computations over the rational
  numbers: the C++ float and double expressions are translated term for
  term into rational arithmetic, with the library transcendental functions
  (sin, cos, exp) kept as abstract function parameters, and the C library
  rand() modelled as an abstract stream of natural numbers, one entry per
  call, bounded only by its type.  All claims settled here are about
  container sizes, integer ranges of pixel expressions, and equalities
  between identically computed expressions; none of them depends on the
  rounding behaviour of floating point, so the rational embedding is
  faithful for their purposes.
-/

namespace CVDebugMate

/-! ## Section 1: demo_2d_images (main.cpp lines 37-195)

Each generated image is modelled by its per-pixel channel expression.
The C++ code computes each channel as a nonnegative int expression and
then casts it to an 8-bit type; we keep the pre-cast integer value.
Division of nonnegative ints in C++ truncates, which agrees with natural
number division, so the inner divisions are taken in Nat and then cast
to Int, where the one subtraction (std_img, channel G) takes place. -/

/-- Predicate: an integer channel value fits the 8-bit range [0, 255]. -/
def inRange8 (v : ℤ) : Prop := 0 ≤ v ∧ v ≤ 255

/-- Pixel of img_bgr (4800 rows, 6400 cols, CV_8UC3), main.cpp lines 44-47:
channels (x*255/cols, y*255/rows, (x+y)*255/(cols+rows)). -/
def img_bgr_pixel (y x : ℕ) : ℤ × ℤ × ℤ :=
  (((x * 255 / 6400 : ℕ) : ℤ),
   ((y * 255 / 4800 : ℕ) : ℤ),
   (((x + y) * 255 / (6400 + 4800) : ℕ) : ℤ))

/-- Pixel of c_img (height 100, width 150, 3 channels), main.cpp lines 116-118. -/
def c_img_pixel (y x : ℕ) : ℤ × ℤ × ℤ :=
  (((y * 255 / 100 : ℕ) : ℤ), ((x * 255 / 150 : ℕ) : ℤ), 128)

/-- Pixel of c_img_gray (50 rows, 80 cols, 1 channel), main.cpp line 126. -/
def c_img_gray_pixel (y x : ℕ) : ℤ :=
  (((x + y) * 255 / 130 : ℕ) : ℤ)

/-- Pixel of c_img_rgba (60 rows, 60 cols, 4 channels), main.cpp lines 134-137. -/
def c_img_rgba_pixel (y x : ℕ) : ℤ × ℤ × ℤ × ℤ :=
  (((x * 255 / 60 : ℕ) : ℤ), ((y * 255 / 60 : ℕ) : ℤ), 100, 255)

/-- Pixel of std_img (height 100, width 150), main.cpp lines 148-152:
channels (0, 255 - y*255/height, x*255/width); the subtraction is int
subtraction, so it is taken in ℤ. -/
def std_img_pixel (y x : ℕ) : ℤ × ℤ × ℤ :=
  (0, 255 - ((y * 255 / 100 : ℕ) : ℤ), ((x * 255 / 150 : ℕ) : ℤ))

/-- Pixel of std_img_gray (30 rows, 40 cols, 1 channel), main.cpp line 160. -/
def std_img_gray_pixel (y _x : ℕ) : ℤ :=
  ((y * 255 / 30 : ℕ) : ℤ)

theorem scale255_le {a b : ℕ} (hb : 0 < b) (ha : a < b) : a * 255 / b ≤ 255 :=
  Nat.le_of_lt_succ ((Nat.div_lt_iff_lt_mul hb).mpr (by omega))

theorem inRange8_scale {a b : ℕ} (hb : 0 < b) (ha : a < b) :
    inRange8 ((a * 255 / b : ℕ) : ℤ) :=
  ⟨Int.natCast_nonneg _, by exact_mod_cast scale255_le hb ha⟩

/-- C2: every pixel channel value generated in demo_2d_images for img_bgr,
c_img, c_img_gray, c_img_rgba, std_img and std_img_gray lies in [0, 255]
before the cast to an 8-bit type, so no value wraps modulo 256. -/
theorem demo_2d_images_pixels_in_range (y x : ℕ) :
    (y < 4800 → x < 6400 →
      inRange8 (img_bgr_pixel y x).1 ∧ inRange8 (img_bgr_pixel y x).2.1 ∧
        inRange8 (img_bgr_pixel y x).2.2) ∧
    (y < 100 → x < 150 →
      inRange8 (c_img_pixel y x).1 ∧ inRange8 (c_img_pixel y x).2.1 ∧
        inRange8 (c_img_pixel y x).2.2) ∧
    (y < 50 → x < 80 → inRange8 (c_img_gray_pixel y x)) ∧
    (y < 60 → x < 60 →
      inRange8 (c_img_rgba_pixel y x).1 ∧ inRange8 (c_img_rgba_pixel y x).2.1 ∧
        inRange8 (c_img_rgba_pixel y x).2.2.1 ∧
        inRange8 (c_img_rgba_pixel y x).2.2.2) ∧
    (y < 100 → x < 150 →
      inRange8 (std_img_pixel y x).1 ∧ inRange8 (std_img_pixel y x).2.1 ∧
        inRange8 (std_img_pixel y x).2.2) ∧
    (y < 30 → x < 40 → inRange8 (std_img_gray_pixel y x)) := by
  refine ⟨?_, ?_, ?_, ?_, ?_, ?_⟩
  · intro hy hx
    exact ⟨inRange8_scale (by norm_num) hx, inRange8_scale (by norm_num) hy,
      inRange8_scale (by norm_num) (by omega)⟩
  · intro hy hx
    exact ⟨inRange8_scale (by norm_num) hy, inRange8_scale (by norm_num) hx,
      by norm_num [inRange8, c_img_pixel]⟩
  · intro hy hx
    exact inRange8_scale (by norm_num) (by omega)
  · intro hy hx
    exact ⟨inRange8_scale (by norm_num) hx, inRange8_scale (by norm_num) hy,
      by norm_num [inRange8, c_img_rgba_pixel],
      by norm_num [inRange8, c_img_rgba_pixel]⟩
  · intro hy hx
    refine ⟨by norm_num [inRange8, std_img_pixel], ?_,
      inRange8_scale (by norm_num) hx⟩
    have h : y * 255 / 100 ≤ 255 := scale255_le (by norm_num) hy
    have h2 : ((y * 255 / 100 : ℕ) : ℤ) ≤ 255 := by exact_mod_cast h
    have h3 : (0 : ℤ) ≤ ((y * 255 / 100 : ℕ) : ℤ) := Int.natCast_nonneg _
    unfold inRange8 std_img_pixel
    constructor <;> simp <;> omega
  · intro hy hx
    exact inRange8_scale (by norm_num) hy

/-- Witness for C2: the full statement instantiated at pixel (7, 9),
with every bound discharged concretely. -/
theorem demo_2d_images_pixels_in_range_witness :
    (inRange8 (img_bgr_pixel 7 9).1 ∧ inRange8 (img_bgr_pixel 7 9).2.1 ∧
      inRange8 (img_bgr_pixel 7 9).2.2) ∧
    (inRange8 (c_img_pixel 7 9).1 ∧ inRange8 (c_img_pixel 7 9).2.1 ∧
      inRange8 (c_img_pixel 7 9).2.2) ∧
    inRange8 (c_img_gray_pixel 7 9) ∧
    (inRange8 (c_img_rgba_pixel 7 9).1 ∧ inRange8 (c_img_rgba_pixel 7 9).2.1 ∧
      inRange8 (c_img_rgba_pixel 7 9).2.2.1 ∧
      inRange8 (c_img_rgba_pixel 7 9).2.2.2) ∧
    (inRange8 (std_img_pixel 7 9).1 ∧ inRange8 (std_img_pixel 7 9).2.1 ∧
      inRange8 (std_img_pixel 7 9).2.2) ∧
    inRange8 (std_img_gray_pixel 7 9) := by
  have h := demo_2d_images_pixels_in_range 7 9
  exact ⟨h.1 (by decide) (by decide), h.2.1 (by decide) (by decide),
    h.2.2.1 (by decide) (by decide), h.2.2.2.1 (by decide) (by decide),
    h.2.2.2.2.1 (by decide) (by decide), h.2.2.2.2.2 (by decide) (by decide)⟩

/-! ## Common scalar model -/

/-- The rand() stream: one natural number per call, in call order.  The
program never seeds the generator, so the stream is some fixed but
implementation-defined sequence; every theorem quantifies over it. -/
def RandStream := ℕ → ℕ

/-- RAND_MAX of the C library (the usual 2^31 - 1). -/
def RAND_MAX_C : ℕ := 2147483647

/-- M_PI as defined at main.cpp line 31. -/
def M_PI_q : ℚ := 3.14159265358979323846

/-- static_cast<float>(rand()) / RAND_MAX, main.cpp lines 211-213 etc. -/
def randToUnit (r : ℕ) : ℚ := (r : ℚ) / (RAND_MAX_C : ℚ)

/-- A cv::Point3f: three float coordinates, modelled as rationals. -/
structure Point3f where
  x : ℚ
  y : ℚ
  z : ℚ
  deriving DecidableEq

/-- A cv::Point3d: three double coordinates, modelled as rationals. -/
structure Point3d where
  x : ℚ
  y : ℚ
  z : ℚ
  deriving DecidableEq

/-- Point3d built from the same three float scalars, as in
cloud_d.push_back(cv::Point3d(x, y, z)) where x, y, z are floats;
widening float to double is exact. -/
def widen (p : Point3f) : Point3d := { x := p.x, y := p.y, z := p.z }

/-! ## Section 2: demo_3d_pointcloud (main.cpp lines 200-256)

cloud_f and cloud_d are built by two loops: 500000 sphere points (three
rand() calls each) and 100000 ground-plane points (two rand() calls
each), each iteration pushing the same float triple to both vectors.
The state after n total loop iterations is demo3d_cloudsAfter n; the
first numPoints iterations are sphere iterations, the rest ground-plane
iterations, matching the loop order in the source. -/

/-- numPoints, main.cpp line 208. -/
def numPoints : ℕ := 500000

/-- radius, main.cpp line 209. -/
def radius_q : ℚ := 5

/-- Iteration count of the ground-plane loop, main.cpp line 222. -/
def groundPlanePoints : ℕ := 100000

/-- One sphere point, main.cpp lines 211-216, from three rand() draws. -/
def spherePoint (sinq cosq : ℚ → ℚ) (r1 r2 r3 : ℕ) : Point3f :=
  let theta : ℚ := randToUnit r1 * 2 * M_PI_q
  let phi : ℚ := randToUnit r2 * M_PI_q
  let r : ℚ := radius_q * (9/10 + 1/10 * randToUnit r3)
  { x := r * sinq phi * cosq theta
    y := r * sinq phi * sinq theta
    z := r * cosq phi }

/-- One ground-plane point, main.cpp lines 223-225, from two rand() draws. -/
def groundPoint (r1 r2 : ℕ) : Point3f :=
  { x := (randToUnit r1 - 1/2) * 20
    y := (randToUnit r2 - 1/2) * 20
    z := -radius_q - 1 }

/-- The point pushed at overall iteration i: sphere iterations consume
rand() calls 3i, 3i+1, 3i+2; ground iterations consume the next two. -/
def demo3d_step (sinq cosq : ℚ → ℚ) (rng : RandStream) (i : ℕ) : Point3f :=
  if i < numPoints then
    spherePoint sinq cosq (rng (3 * i)) (rng (3 * i + 1)) (rng (3 * i + 2))
  else
    groundPoint (rng (3 * numPoints + 2 * (i - numPoints)))
      (rng (3 * numPoints + 2 * (i - numPoints) + 1))

/-- State of (cloud_f, cloud_d) after n total generation-loop iterations. -/
def demo3d_cloudsAfter (sinq cosq : ℚ → ℚ) (rng : RandStream) :
    ℕ → List Point3f × List Point3d
  | 0 => ([], [])
  | n + 1 =>
    let s := demo3d_cloudsAfter sinq cosq rng n
    let p := demo3d_step sinq cosq rng n
    (s.1 ++ [p], s.2 ++ [widen p])

/-- ARRAY_SIZE, main.cpp line 231: the requested size of the spiral
(pillar) clouds array_cloud_f and array_cloud_d. -/
def ARRAY_SIZE : ℕ := 10000

/-- One spiral point, main.cpp lines 236-239. -/
def spiralPoint (sinq cosq : ℚ → ℚ) (i : ℕ) : Point3f :=
  let t : ℚ := (i : ℚ) / (ARRAY_SIZE : ℚ) * 4 * M_PI_q
  { x := cosq t * (1 + t * (1/10))
    y := sinq t * (1 + t * (1/10))
    z := t * (1/2) }

/-- array_cloud_f, main.cpp lines 232-242. -/
def array_cloud_f (sinq cosq : ℚ → ℚ) : List Point3f :=
  (List.range ARRAY_SIZE).map (spiralPoint sinq cosq)

/-- array_cloud_d, main.cpp lines 233-242: the same float triples. -/
def array_cloud_d (sinq cosq : ℚ → ℚ) : List Point3d :=
  (List.range ARRAY_SIZE).map (fun i => widen (spiralPoint sinq cosq i))

theorem demo3d_cloudsAfter_fst_length (sinq cosq : ℚ → ℚ) (rng : RandStream)
    (n : ℕ) : ((demo3d_cloudsAfter sinq cosq rng n).1).length = n := by
  induction n with
  | zero => rfl
  | succ k ih => simp [demo3d_cloudsAfter, ih]

theorem demo3d_cloudsAfter_snd_eq_map (sinq cosq : ℚ → ℚ) (rng : RandStream)
    (n : ℕ) :
    (demo3d_cloudsAfter sinq cosq rng n).2 =
      ((demo3d_cloudsAfter sinq cosq rng n).1).map widen := by
  induction n with
  | zero => rfl
  | succ k ih => simp [demo3d_cloudsAfter, ih]

/-- C9: throughout the generation loops of demo_3d_pointcloud, cloud_f and
cloud_d have equal size, and cloud_d is pointwise the widening of cloud_f
to double: after any number n of loop iterations, cloud_d equals cloud_f
mapped through widen, so corresponding entries hold the same scalars. -/
theorem demo3d_clouds_parallel (sinq cosq : ℚ → ℚ) (rng : RandStream)
    (n : ℕ) :
    ((demo3d_cloudsAfter sinq cosq rng n).1).length =
      ((demo3d_cloudsAfter sinq cosq rng n).2).length ∧
    (demo3d_cloudsAfter sinq cosq rng n).2 =
      ((demo3d_cloudsAfter sinq cosq rng n).1).map widen := by
  refine ⟨?_, demo3d_cloudsAfter_snd_eq_map sinq cosq rng n⟩
  rw [demo3d_cloudsAfter_snd_eq_map sinq cosq rng n, List.length_map]

/-- C1 counterexample: after the generation loops complete, cloud_f has
numPoints + groundPlanePoints = 600000 points, which differs from the sum
of the sphere, ground-plane and pillar (spiral) point counts
500000 + 100000 + 10000: the pillar points go to array_cloud_f, not
cloud_f.  Shown at the concrete stream that is constantly 0 and with the
trigonometric parameters instantiated to the zero function. -/
theorem demo3d_cloud_size_not_sum_of_three :
    ((demo3d_cloudsAfter (fun _ => 0) (fun _ => 0) (fun _ => 0)
        (numPoints + groundPlanePoints)).1).length ≠
      numPoints + groundPlanePoints + ARRAY_SIZE := by
  rw [demo3d_cloudsAfter_fst_length]
  decide

/-- C1 (amended): after the generation loops of demo_3d_pointcloud
complete, cloud_f and cloud_d each hold exactly the sum of the sphere and
ground-plane point counts, 500000 + 100000 = 600000; the pillar (spiral)
shape contributes its 10000 points to the separate containers
array_cloud_f and array_cloud_d, whose size is ARRAY_SIZE. -/
theorem demo3d_cloud_sizes (sinq cosq : ℚ → ℚ) (rng : RandStream) :
    ((demo3d_cloudsAfter sinq cosq rng (numPoints + groundPlanePoints)).1).length =
      numPoints + groundPlanePoints ∧
    ((demo3d_cloudsAfter sinq cosq rng (numPoints + groundPlanePoints)).2).length =
      numPoints + groundPlanePoints ∧
    (array_cloud_f sinq cosq).length = ARRAY_SIZE := by
  refine ⟨demo3d_cloudsAfter_fst_length sinq cosq rng _, ?_, ?_⟩
  · rw [demo3d_cloudsAfter_snd_eq_map, List.length_map,
      demo3d_cloudsAfter_fst_length]
  · simp [array_cloud_f]

/-! ## Section 3: demo_1d_plots (main.cpp lines 261-325)

The vectors are constructed with an explicit element count and then
filled index by index, so each is modelled as a map over List.range of
its count.  std::set deduplicates, so set_double is a Finset built by
folding the 1000 insertions. -/

/-- N, main.cpp line 265. -/
def N_1d : ℕ := 100000

/-- static_cast<int>(q) for a double q: truncation toward zero. -/
def cppTrunc (q : ℚ) : ℤ := if 0 ≤ q then ⌊q⌋ else -⌊-q⌋

/-- t as computed at main.cpp line 274. -/
def t_1d (i : ℕ) : ℚ := (i : ℚ) / (N_1d : ℚ) * 100 * M_PI_q

/-- vec_sin, main.cpp line 275. -/
def vec_sin (sinq : ℚ → ℚ) : List ℚ :=
  (List.range N_1d).map (fun i => sinq (t_1d i) + 1/10 * sinq (t_1d i * 10))

/-- vec_cos, main.cpp line 276. -/
def vec_cos (cosq : ℚ → ℚ) : List ℚ :=
  (List.range N_1d).map (fun i => cosq (t_1d i) + 1/10 * cosq (t_1d i * 10))

/-- vec_double, main.cpp line 277. -/
def vec_double (sinq cosq : ℚ → ℚ) : List ℚ :=
  (List.range N_1d).map (fun i =>
    sinq (t_1d i) * cosq (t_1d i * (1/2)) + 1/20 * sinq (t_1d i * 20))

/-- vec_int, main.cpp line 278. -/
def vec_int (sinq : ℚ → ℚ) : List ℤ :=
  (List.range N_1d).map (fun i =>
    cppTrunc (sinq (t_1d i) * 100 + 50 * sinq (t_1d i * 5)))

/-- vec_uchar, main.cpp line 279; the conversion of the float value to
uchar is modelled as truncation reduced modulo 256. -/
def vec_uchar (sinq : ℚ → ℚ) : List ℤ :=
  (List.range N_1d).map (fun i =>
    cppTrunc ((sinq (t_1d i) + 1) * (255/2)) % 256)

/-- t as computed at main.cpp line 288. -/
def t_arr (i : ℕ) : ℚ := (i : ℚ) / 10000 * 20 * M_PI_q

/-- array_float, main.cpp line 289. -/
def array_float (sinq expq : ℚ → ℚ) : List ℚ :=
  (List.range 10000).map (fun i =>
    sinq (t_arr i) * expq (-(t_arr i) * (1/100)) + 1/5 * sinq (t_arr i * 5))

/-- array_double, main.cpp line 290. -/
def array_double (cosq : ℚ → ℚ) : List ℚ :=
  (List.range 10000).map (fun i =>
    cosq (t_arr i) * (1 - t_arr i / (20 * M_PI_q)) + 1/10 * cosq (t_arr i * 7))

/-- array_int, main.cpp line 291. -/
def array_int (sinq : ℚ → ℚ) : List ℤ :=
  (List.range 10000).map (fun i =>
    cppTrunc (sinq (t_arr i * 2) * 50 + 50 + 20 * sinq (t_arr i * 10)))

/-- set_double, main.cpp lines 295-298: 1000 insertions of
rand()/RAND_MAX*100.0 into a std::set, which keeps distinct values. -/
def set_double (rng : RandStream) : Finset ℚ :=
  (List.range 1000).foldl (fun s i => insert (randToUnit (rng i) * 100) s) ∅

theorem foldl_insert_toFinset (f : ℕ → ℚ) (l : List ℕ) (s : Finset ℚ) :
    l.foldl (fun t i => insert (f i) t) s = s ∪ (l.map f).toFinset := by
  induction l generalizing s with
  | nil => simp
  | cons a l ih =>
    simp only [List.foldl_cons, List.map_cons, List.toFinset_cons, ih,
      Finset.insert_union, Finset.union_insert]

/-- C7 counterexample: with the rand() stream that is constantly 0, all
1000 values inserted into set_double coincide, so the set holds a single
element, not the requested count of 1000. -/
theorem set_double_size_below_requested :
    (set_double (fun _ => 0)).card ≠ 1000 := by
  have h : set_double (fun _ => 0) =
      ((List.range 1000).map (fun i => randToUnit 0 * 100)).toFinset := by
    rw [set_double, foldl_insert_toFinset, Finset.empty_union]
  have h2 : ((List.range 1000).map (fun i => randToUnit 0 * 100)) =
      List.replicate 1000 (randToUnit 0 * 100) := by
    rw [List.eq_replicate_iff]
    refine ⟨by rw [List.length_map, List.length_range], ?_⟩
    intro b hb
    rcases List.mem_map.mp hb with ⟨i, _, hi⟩
    exact hi.symm
  rw [h, h2, List.toFinset_replicate_of_ne_zero (by norm_num),
    Finset.card_singleton]
  norm_num

/-- C7 (amended): every generated vector and array in demo_1d_plots has
exactly its requested element count (100000 for the five vectors, 10000
for the three arrays and for array_cloud_f and array_cloud_d), while
set_double holds exactly the distinct values among its 1000 insertions:
it equals the Finset of the inserted values, hence has at most 1000
elements, with equality exactly when the 1000 random draws are distinct. -/
theorem demo_1d_container_sizes (sinq cosq expq : ℚ → ℚ) (rng : RandStream) :
    (vec_sin sinq).length = 100000 ∧
    (vec_cos cosq).length = 100000 ∧
    (vec_double sinq cosq).length = 100000 ∧
    (vec_int sinq).length = 100000 ∧
    (vec_uchar sinq).length = 100000 ∧
    (array_float sinq expq).length = 10000 ∧
    (array_double cosq).length = 10000 ∧
    (array_int sinq).length = 10000 ∧
    (array_cloud_f sinq cosq).length = 10000 ∧
    (array_cloud_d sinq cosq).length = 10000 ∧
    set_double rng =
      ((List.range 1000).map (fun i => randToUnit (rng i) * 100)).toFinset ∧
    (set_double rng).card ≤ 1000 := by
  refine ⟨by simp [vec_sin, N_1d], by simp [vec_cos, N_1d],
    by simp [vec_double, N_1d], by simp [vec_int, N_1d],
    by simp [vec_uchar, N_1d], by simp [array_float],
    by simp [array_double], by simp [array_int],
    by simp [array_cloud_f, ARRAY_SIZE], by simp [array_cloud_d, ARRAY_SIZE],
    ?_, ?_⟩
  · rw [set_double, foldl_insert_toFinset, Finset.empty_union]
  · rw [set_double, foldl_insert_toFinset, Finset.empty_union]
    calc (((List.range 1000).map (fun i => randToUnit (rng i) * 100)).toFinset).card
        ≤ ((List.range 1000).map (fun i => randToUnit (rng i) * 100)).length :=
          List.toFinset_card_le _
      _ = 1000 := by simp

/-! ## Section 4: demo_auto_refresh (main.cpp lines 330-401)

The loop state carries dynamic_vec, dynamic_array and dynamic_cloud.
dynamic_img is mutated only through the OpenCV drawing calls cv::circle
and cv::putText, which no claim concerns, so it is not part of the
modelled state.  autoRefreshAfter k is the state after the first k loop
iterations (iterations 0 .. k-1 of the source loop). -/

/-- The loop bound at main.cpp line 354: iteration runs over [0, 10). -/
def autoRefreshIterationCount : ℕ := 10

/-- State of the mutable buffers of demo_auto_refresh. -/
structure AutoRefreshState where
  vec : List ℚ
  arr : List ℚ
  cloud : List Point3f
  deriving DecidableEq

/-- State before the loop, main.cpp lines 340-351: dynamic_vec empty,
dynamic_array filled with 0.0f, dynamic_cloud a circle of 100 points. -/
def autoRefreshInit (sinq cosq : ℚ → ℚ) : AutoRefreshState :=
  { vec := []
    arr := List.replicate 50 0
    cloud := (List.range 100).map (fun (i : ℕ) =>
      let angle : ℚ := (i : ℚ) / 100 * 2 * M_PI_q
      { x := cosq angle * 10, y := sinq angle * 5, z := 0 }) }

/-- One iteration of the loop body, main.cpp lines 354-398: ten values
appended to dynamic_vec, dynamic_array rewritten with a wave pattern,
and every point of dynamic_cloud rotated in place with its z set to
sin(iteration * 0.5f) * 2.0f. -/
def autoRefreshStep (sinq cosq : ℚ → ℚ) (it : ℕ) (s : AutoRefreshState) :
    AutoRefreshState :=
  { vec := s.vec ++ (List.range 10).map (fun j =>
      sinq (((it * 10 + j : ℕ) : ℚ) * (1/10)) * ((it : ℚ) + 1))
    arr := (List.range 50).map (fun i =>
      sinq (((i + it * 5 : ℕ) : ℚ) * (1/5)) * ((it : ℚ) + 1))
    cloud := s.cloud.map (fun pt =>
      { x := pt.x * cosq (1/10) - pt.y * sinq (1/10)
        y := pt.x * sinq (1/10) + pt.y * cosq (1/10)
        z := sinq ((it : ℚ) * (1/2)) * 2 }) }

/-- State after the first k iterations of the auto-refresh loop. -/
def autoRefreshAfter (sinq cosq : ℚ → ℚ) : ℕ → AutoRefreshState
  | 0 => autoRefreshInit sinq cosq
  | k + 1 => autoRefreshStep sinq cosq k (autoRefreshAfter sinq cosq k)

theorem autoRefreshAfter_vec_length (sinq cosq : ℚ → ℚ) (k : ℕ) :
    ((autoRefreshAfter sinq cosq k).vec).length = 10 * k := by
  induction k with
  | zero => rfl
  | succ n ih =>
    simp only [autoRefreshAfter, autoRefreshStep, List.length_append,
      List.length_map, List.length_range, ih]
    omega

theorem autoRefreshAfter_cloud_length (sinq cosq : ℚ → ℚ) (k : ℕ) :
    ((autoRefreshAfter sinq cosq k).cloud).length = 100 := by
  induction k with
  | zero =>
    show ((autoRefreshInit sinq cosq).cloud).length = 100
    rw [autoRefreshInit]
    rw [List.length_map, List.length_range]
  | succ n ih =>
    simp only [autoRefreshAfter, autoRefreshStep, List.length_map, ih]

/-- C3: the auto-refresh loop runs the 10 iterations 0 .. 9, and after
the k-th iteration (0-based) dynamic_vec has exactly 10 * (k + 1)
elements, which is strictly more than it had before that iteration. -/
theorem demo_auto_refresh_vec_monotone (sinq cosq : ℚ → ℚ) (k : ℕ)
    (_hk : k < autoRefreshIterationCount) :
    autoRefreshIterationCount = 10 ∧
    ((autoRefreshAfter sinq cosq (k + 1)).vec).length = 10 * (k + 1) ∧
    ((autoRefreshAfter sinq cosq k).vec).length <
      ((autoRefreshAfter sinq cosq (k + 1)).vec).length := by
  rw [autoRefreshAfter_vec_length, autoRefreshAfter_vec_length]
  refine ⟨rfl, rfl, by omega⟩

/-- Witness for C3: the statement applied at iteration 0 with the
trigonometric parameters instantiated to the zero function. -/
theorem demo_auto_refresh_vec_monotone_witness :
    autoRefreshIterationCount = 10 ∧
    ((autoRefreshAfter (fun _ => 0) (fun _ => 0) (0 + 1)).vec).length =
      10 * (0 + 1) ∧
    ((autoRefreshAfter (fun _ => 0) (fun _ => 0) 0).vec).length <
      ((autoRefreshAfter (fun _ => 0) (fun _ => 0) (0 + 1)).vec).length :=
  demo_auto_refresh_vec_monotone (fun _ => 0) (fun _ => 0) 0 (by decide)

/-- C10: dynamic_cloud always holds exactly 100 points (the in-place
rotation neither adds nor removes points), and at the end of every loop
iteration k every point of dynamic_cloud has the same z-coordinate,
namely sin(k * 0.5f) * 2.0f. -/
theorem demo_auto_refresh_cloud_invariant (sinq cosq : ℚ → ℚ) :
    (∀ k, k ≤ autoRefreshIterationCount →
      ((autoRefreshAfter sinq cosq k).cloud).length = 100) ∧
    (∀ k, k < autoRefreshIterationCount →
      ∀ p ∈ (autoRefreshAfter sinq cosq (k + 1)).cloud,
        p.z = sinq ((k : ℚ) * (1/2)) * 2) := by
  constructor
  · intro k _
    exact autoRefreshAfter_cloud_length sinq cosq k
  · intro k _ p hp
    simp only [autoRefreshAfter, autoRefreshStep, List.mem_map] at hp
    rcases hp with ⟨q, _, rfl⟩
    rfl

/-- Witness for C10: the statement applied at iteration 0 with the
trigonometric parameters instantiated to the zero function. -/
theorem demo_auto_refresh_cloud_invariant_witness :
    ((autoRefreshAfter (fun _ => 0) (fun _ => 0) 0).cloud).length = 100 ∧
    (∀ p ∈ (autoRefreshAfter (fun _ => 0) (fun _ => 0) (0 + 1)).cloud,
      p.z = 0 * 2) := by
  have h := demo_auto_refresh_cloud_invariant (fun _ => 0) (fun _ => 0)
  exact ⟨h.1 0 (by decide), h.2 0 (by decide)⟩

/-! ## Section 6: worker threads and demo_multithreaded (main.cpp lines 501-611)

Each worker function fills a stack-local buffer from its integer
thread_id.  None of the worker bodies calls rand() or reads any state
other than thread_id, so each is embedded as a function that receives
the process-wide rand() stream (the only ambient mutable state the
program consults) and returns it untouched along with the buffer.
cv::putText is a pure function of its arguments; the image worker passes
it through as an abstract parameter applied to the generated image and
the thread id rendered into the text. -/

/-- A BGR image as a row-major grid of integer channel triples. -/
def Image2D := List (List (ℕ × ℕ × ℕ))

/-- The raw thread_img of worker_thread_image before the text overlay,
main.cpp lines 505-514: 100 x 100, channel triple
((thread_id*50 + x) % 256, (thread_id*80 + y) % 256, thread_id*40 % 256). -/
def thread_img_raw (tid : ℕ) : Image2D :=
  (List.range 100).map (fun y => (List.range 100).map (fun x =>
    ((tid * 50 + x) % 256, (tid * 80 + y) % 256, tid * 40 % 256)))

/-- worker_thread_image, main.cpp lines 501-526: builds thread_img and
overlays text naming the thread id; makes no rand() call. -/
def worker_thread_image (putTextI : Image2D → ℕ → Image2D) (tid : ℕ)
    (env : RandStream) : Image2D × RandStream :=
  (putTextI (thread_img_raw tid) tid, env)

/-- worker_thread_vector, main.cpp lines 529-547: thread_vec has 50
entries sin(i*0.2f + thread_id) * (thread_id + 1) * 10.0f; makes no
rand() call. -/
def worker_thread_vector (sinq : ℚ → ℚ) (tid : ℕ)
    (env : RandStream) : List ℚ × RandStream :=
  ((List.range 50).map (fun (i : ℕ) =>
    sinq ((i : ℚ) * (1/5) + (tid : ℚ)) * ((tid : ℚ) + 1) * 10), env)

/-- worker_thread_pointcloud, main.cpp lines 550-572: thread_cloud has
100 spiral points depending on thread_id; makes no rand() call. -/
def worker_thread_pointcloud (sinq cosq : ℚ → ℚ) (tid : ℕ)
    (env : RandStream) : List Point3f × RandStream :=
  ((List.range 100).map (fun (i : ℕ) =>
    let t : ℚ := (i : ℚ) / 100 * 2 * M_PI_q
    let radius : ℚ := 2 + (tid : ℚ) * (1/2)
    ({ x := cosq (t * ((tid : ℚ) + 1)) * radius
       y := sinq (t * ((tid : ℚ) + 1)) * radius
       z := t * (tid : ℚ) * (1/2) } : Point3f)), env)

/-- C5: each worker buffer is a deterministic function of the thread id
alone: two executions of the same worker with the same thread_id, in
arbitrary ambient states of the process rand() stream, produce identical
buffer contents (for any interpretation of the library text overlay and
of the trigonometric functions). -/
theorem worker_buffers_deterministic (sinq cosq : ℚ → ℚ)
    (putTextI : Image2D → ℕ → Image2D) (tid : ℕ) (env1 env2 : RandStream) :
    (worker_thread_image putTextI tid env1).1 =
      (worker_thread_image putTextI tid env2).1 ∧
    (worker_thread_vector sinq tid env1).1 =
      (worker_thread_vector sinq tid env2).1 ∧
    (worker_thread_pointcloud sinq cosq tid env1).1 =
      (worker_thread_pointcloud sinq cosq tid env2).1 :=
  ⟨rfl, rfl, rfl⟩

/-- The kind of worker function a thread runs. -/
inductive WorkerKind where
  | image
  | vector
  | pointcloud
  deriving DecidableEq

/-- The threads vector built by demo_multithreaded, main.cpp lines
588-603: two loops of emplace_back per worker kind, with i running over
[0,2), [2,4) and [4,6) respectively. -/
def demo_multithreaded_threads : List (WorkerKind × ℕ) :=
  (List.range' 0 2).map (fun i => (WorkerKind.image, i)) ++
    (List.range' 2 2).map (fun i => (WorkerKind.vector, i)) ++
    (List.range' 4 2).map (fun i => (WorkerKind.pointcloud, i))

/-- A thread operation performed by demo_multithreaded. -/
inductive ThreadOp where
  | launch : WorkerKind → ℕ → ThreadOp
  | join : WorkerKind → ℕ → ThreadOp
  deriving DecidableEq

/-- The sequence of thread operations of demo_multithreaded: the launch
loops (main.cpp lines 591-603) followed by the join loop over the same
threads vector (main.cpp lines 606-608); the function performs no other
thread or synchronization operation. -/
def demo_multithreaded_ops : List ThreadOp :=
  demo_multithreaded_threads.map (fun t => ThreadOp.launch t.1 t.2) ++
    demo_multithreaded_threads.map (fun t => ThreadOp.join t.1 t.2)

/-- C4: demo_multithreaded creates exactly six threads with distinct ids
0 to 5 (ids 0-1 running worker_thread_image, 2-3 worker_thread_vector,
4-5 worker_thread_pointcloud), and its operation sequence is the six
launches followed by a join of every launched thread, with no other
synchronization operation. -/
theorem demo_multithreaded_structure :
    demo_multithreaded_threads =
      [(WorkerKind.image, 0), (WorkerKind.image, 1),
       (WorkerKind.vector, 2), (WorkerKind.vector, 3),
       (WorkerKind.pointcloud, 4), (WorkerKind.pointcloud, 5)] ∧
    demo_multithreaded_threads.length = 6 ∧
    (demo_multithreaded_threads.map Prod.snd).Nodup ∧
    demo_multithreaded_ops =
      [ThreadOp.launch WorkerKind.image 0, ThreadOp.launch WorkerKind.image 1,
       ThreadOp.launch WorkerKind.vector 2, ThreadOp.launch WorkerKind.vector 3,
       ThreadOp.launch WorkerKind.pointcloud 4,
       ThreadOp.launch WorkerKind.pointcloud 5,
       ThreadOp.join WorkerKind.image 0, ThreadOp.join WorkerKind.image 1,
       ThreadOp.join WorkerKind.vector 2, ThreadOp.join WorkerKind.vector 3,
       ThreadOp.join WorkerKind.pointcloud 4,
       ThreadOp.join WorkerKind.pointcloud 5] := by
  refine ⟨by decide, by decide, by decide, by decide⟩

/-! ## main (main.cpp lines 616-634) -/

/-- The demo routines of the program. -/
inductive DemoRoutine where
  | demo2dImages
  | demo3dPointcloud
  | demo1dPlots
  | demoAutoRefresh
  | demoPointerTypes
  | demoMultithreaded
  deriving DecidableEq

/-- The calls performed by main in order, main.cpp lines 625-630, and
the value it returns, main.cpp line 633. -/
def cpp_main : List DemoRoutine × ℤ :=
  ([DemoRoutine.demo2dImages, DemoRoutine.demo3dPointcloud,
    DemoRoutine.demo1dPlots, DemoRoutine.demoAutoRefresh,
    DemoRoutine.demoPointerTypes, DemoRoutine.demoMultithreaded], 0)

/-- C8: main invokes the demo routines in the order demo_2d_images,
demo_3d_pointcloud, demo_1d_plots, demo_auto_refresh,
demo_pointer_types, demo_multithreaded, and returns exit code 0. -/
theorem cpp_main_sequence_and_exit :
    cpp_main.1 =
      [DemoRoutine.demo2dImages, DemoRoutine.demo3dPointcloud,
       DemoRoutine.demo1dPlots, DemoRoutine.demoAutoRefresh,
       DemoRoutine.demoPointerTypes, DemoRoutine.demoMultithreaded] ∧
    cpp_main.2 = 0 :=
  ⟨rfl, rfl⟩

end CVDebugMate
